import Mathlib

/-!
Verification of the execution lifecycle and result-classification engine of
the golem test runner. The runner module itself (golem/test_runner) is not
present in this source snapshot; the definitions below embed it shallowly,
modelled from the specification (sections 3, 4.1-4.4 and 7), with behaviour
pinned down where the repository's own runner tests
(tests/test_runner/test_runner_test.py) fix it.
-/

namespace Golem

/-- Modelled from the spec: the closed ResultKind enum of section 3. -/
inductive ResultKind where
  | SUCCESS
  | FAILURE
  | ERROR
  | CODE_ERROR
  | SKIPPED
deriving DecidableEq, Repr

/-- Modelled from the spec: ErrorEntry of section 3,
`{message, description (full trace)}`. -/
structure ErrorEntry where
  message : String
  description : String
deriving DecidableEq, Repr

/-- Modelled from the spec: StepEntry of section 3,
`{message, screenshot: optional, error: optional ErrorEntry}`. -/
structure StepEntry where
  message : String
  screenshot : Option String
  error : Option ErrorEntry
deriving DecidableEq, Repr

/-- Modelled from the spec: the helper calls invocable from inside a body
(section 4.1). `step(message)` appends a plain StepEntry; `error(message)`
appends an ErrorEntry (with its full-trace description) plus a StepEntry
referencing it and does not interrupt control flow. -/
inductive Action where
  | step (message : String)
  | error (message : String) (description : String)
deriving DecidableEq, Repr

/-- Modelled from the spec: the tagged result of running a body
(section 9): completed normally, aborted by the failure signal
(an uncaught AssertionError with the given assertion message and trace),
or aborted by any other uncaught condition. -/
inductive Termination where
  | normal
  | failSignal (message : String) (trace : String)
  | exception (message : String) (trace : String)
deriving DecidableEq, Repr

/-- A hook or test-function body: the sequence of helper calls it performs,
followed by how it terminates. -/
structure Body where
  actions : List Action
  termination : Termination
deriving DecidableEq, Repr

/-- Modelled from the spec: Signal Channel state (section 3) — the per
logical record accumulated steps and errors (timers are irrelevant to the
claims and omitted). -/
structure Channel where
  steps : List StepEntry
  errors : List ErrorEntry
deriving DecidableEq, Repr

/-- The reset Signal Channel: empty steps and errors. -/
def Channel.empty : Channel := ⟨[], []⟩

/-- Modelled from the spec: the effect of one helper call on the Signal
Channel (section 4.1). -/
def applyAction (ch : Channel) : Action → Channel
  | .step m => { ch with steps := ch.steps ++ [⟨m, none, none⟩] }
  | .error m d =>
      { steps := ch.steps ++ [⟨m, none, some ⟨m, d⟩⟩],
        errors := ch.errors ++ [⟨m, d⟩] }

/-- Run a sequence of helper calls on the Signal Channel. -/
def runActions (ch : Channel) : List Action → Channel
  | [] => ch
  | a :: rest => runActions (applyAction ch a) rest

/-- Modelled from the spec: the effect of a body's termination on the
Signal Channel. A failure signal (uncaught AssertionError) records one
ErrorEntry whose message is the failure prefix followed by the assertion
message, and appends a step whose message is Failure referencing it
(section 4.1 and the repository's runner tests). Any other uncaught
condition records one ErrorEntry holding the condition and a step
referencing it. -/
def applyTermination (ch : Channel) : Termination → Channel
  | .normal => ch
  | .failSignal m tr =>
      { steps := ch.steps ++ [⟨"Failure", none, some ⟨"AssertionError: " ++ m, tr⟩⟩],
        errors := ch.errors ++ [⟨"AssertionError: " ++ m, tr⟩] }
  | .exception m tr =>
      { steps := ch.steps ++ [⟨m, none, some ⟨m, tr⟩⟩],
        errors := ch.errors ++ [⟨m, tr⟩] }

/-- The Signal Channel contents after running a body from a reset channel. -/
def bodyChannel (b : Body) : Channel :=
  applyTermination (runActions Channel.empty b.actions) b.termination

/-- The log line produced by one helper call. -/
def actionLog : Action → String
  | .step m => m
  | .error m _ => m

/-- The log lines produced by a body's termination. -/
def terminationLog : Termination → List String
  | .normal => []
  | .failSignal m _ => ["AssertionError: " ++ m]
  | .exception m _ => [m]

/-- All log lines produced by running a body. -/
def bodyLog (b : Body) : List String :=
  b.actions.map actionLog ++ terminationLog b.termination

/-- Modelled from the spec: the Outcome Classifier (section 4.2), a pure
mapping from the raised condition and the accumulated errors to a
ResultKind, in fixed priority order: failure signal, then any other
uncaught condition, then non-empty errors, then success. -/
def classify (t : Termination) (errors : List ErrorEntry) : ResultKind :=
  match t with
  | .failSignal _ _ => .FAILURE
  | .exception _ _ => .CODE_ERROR
  | .normal => if errors.isEmpty then .SUCCESS else .ERROR

/-- Classification of a body run on a reset Signal Channel. -/
def classifyBody (b : Body) : ResultKind :=
  classify b.termination (bodyChannel b).errors

/-- Modelled from the spec: TestDefinition (section 3) — description, the
skip declaration, the ordered matched test functions, and the optional
hooks with both canonical and deprecated spellings of the unit hooks. -/
structure TestDefinition where
  description : String
  skip : Bool
  functions : List (String × Body)
  before_test : Option Body
  setup : Option Body
  after_test : Option Body
  teardown : Option Body
  before_each : Option Body
  after_each : Option Body
deriving DecidableEq, Repr

/-- Modelled from the spec: RunContext (sections 3 and 4.4) — the per
unit-run identity values that fill each Result Record, and whether the
run is part of a suite. Timing is opaque to the engine; the record
timestamp is carried in the context and elapsed_time is left at zero. -/
structure RunContext where
  test_file : String
  browser : String
  environment : String
  set_name : String
  test_data : String
  from_suite : Bool
  timestamp : String
deriving DecidableEq, Repr

/-- Modelled from the spec: the 12-field Result Record of section 3. -/
structure ResultRecord where
  test_file : String
  test : String
  set_name : String
  test_data : String
  browser : String
  environment : String
  description : String
  steps : List StepEntry
  errors : List ErrorEntry
  result : ResultKind
  elapsed_time : Nat
  timestamp : String
deriving DecidableEq, Repr

/-- The value held by one serialized Result Record field. -/
inductive FieldValue where
  | str (s : String)
  | kind (k : ResultKind)
  | stepList (l : List StepEntry)
  | errorList (l : List ErrorEntry)
  | nat (n : Nat)
deriving DecidableEq, Repr

/-- The serialized view of a Result Record: its field names paired with
their values, in the fixed order of section 3. -/
def ResultRecord.toFields (r : ResultRecord) : List (String × FieldValue) :=
  [("test_file", .str r.test_file),
   ("test", .str r.test),
   ("set_name", .str r.set_name),
   ("test_data", .str r.test_data),
   ("browser", .str r.browser),
   ("environment", .str r.environment),
   ("description", .str r.description),
   ("steps", .stepList r.steps),
   ("errors", .errorList r.errors),
   ("result", .kind r.result),
   ("elapsed_time", .nat r.elapsed_time),
   ("timestamp", .str r.timestamp)]

/-- The 12 field names of the Result Record wire contract. -/
def resultRecordFieldNames : List String :=
  ["test_file", "test", "set_name", "test_data", "browser", "environment",
   "description", "steps", "errors", "result", "elapsed_time", "timestamp"]

/-- Modelled from the spec: loading a unit either yields a TestDefinition
or fails with a load error (section 6). -/
inductive LoadResult where
  | ok (td : TestDefinition)
  | loadError (e : ErrorEntry)
deriving DecidableEq, Repr

/-- Build a Result Record from the run identity, the unit description, a
logical-record name, the captured Signal Channel contents and the
classification. -/
def mkRecord (ctx : RunContext) (description : String) (name : String)
    (ch : Channel) (result : ResultKind) : ResultRecord :=
  { test_file := ctx.test_file, test := name, set_name := ctx.set_name,
    test_data := ctx.test_data, browser := ctx.browser,
    environment := ctx.environment, description := description,
    steps := ch.steps, errors := ch.errors, result := result,
    elapsed_time := 0, timestamp := ctx.timestamp }

/-- The SKIPPED record emitted for a function whose body never runs. -/
def skipRecord (ctx : RunContext) (td : TestDefinition) (name : String) :
    ResultRecord :=
  mkRecord ctx td.description name Channel.empty .SKIPPED

/-- Modelled from the spec: the synthetic record emitted when loading the
unit fails (section 4.3, LOAD): named setup, CODE_ERROR, empty description
and browser, no steps, one ErrorEntry holding the load error. -/
def loadFailRecord (ctx : RunContext) (e : ErrorEntry) : ResultRecord :=
  { test_file := ctx.test_file, test := "setup", set_name := ctx.set_name,
    test_data := ctx.test_data, browser := "",
    environment := ctx.environment, description := "",
    steps := [], errors := [e], result := .CODE_ERROR,
    elapsed_time := 0, timestamp := ctx.timestamp }

/-- The observable output of one unit-run: the emitted Result Records in
emission order, the log lines, and the names of the bodies actually
invoked, in invocation order. -/
structure RunOutput where
  records : List ResultRecord
  log : List String
  executed : List String
deriving DecidableEq, Repr

/-- Concatenate two run outputs componentwise. -/
def RunOutput.append (a b : RunOutput) : RunOutput :=
  ⟨a.records ++ b.records, a.log ++ b.log, a.executed ++ b.executed⟩

/-- Modelled from the spec: resolution of the before-unit hook — the
canonical before_test, else the deprecated alias setup (section 3). -/
def resolvedBefore (td : TestDefinition) : Option (String × Body) :=
  match td.before_test with
  | some b => some ("before_test", b)
  | none =>
    match td.setup with
    | some b => some ("setup", b)
    | none => none

/-- Modelled from the spec: resolution of the after-unit hook — the
canonical after_test, else the deprecated alias teardown (section 3). -/
def resolvedAfter (td : TestDefinition) : Option (String × Body) :=
  match td.after_test with
  | some b => some ("after_test", b)
  | none =>
    match td.teardown with
    | some b => some ("teardown", b)
    | none => none

/-- The deprecation notice logged when the setup alias is used. -/
def beforeNotices (td : TestDefinition) : List String :=
  match td.before_test, td.setup with
  | none, some _ => ["setup hook function is deprecated, use before_test"]
  | _, _ => []

/-- The deprecation notice logged when the teardown alias is used. -/
def afterNotices (td : TestDefinition) : List String :=
  match td.after_test, td.teardown with
  | none, some _ => ["teardown hook function is deprecated, use after_test"]
  | _, _ => []

/-- Modelled from the spec: running one unit hook (sections 4.3
BEFORE_UNIT and AFTER_UNIT): reset the Signal Channel, run the resolved
hook body, classify it, and emit a record named by the hook actually
invoked exactly when the classification is not SUCCESS. -/
def hookPhase (ctx : RunContext) (td : TestDefinition)
    (resolved : Option (String × Body)) (notices : List String) : RunOutput :=
  match resolved with
  | none => ⟨[], [], []⟩
  | some (hn, b) =>
      ⟨if classifyBody b = .SUCCESS then []
       else [mkRecord ctx td.description hn (bodyChannel b) (classifyBody b)],
       notices ++ bodyLog b, [hn]⟩

/-- The BEFORE_UNIT phase output. -/
def beforeUnitOutput (ctx : RunContext) (td : TestDefinition) : RunOutput :=
  hookPhase ctx td (resolvedBefore td) (beforeNotices td)

/-- The AFTER_UNIT phase output. -/
def afterUnitOutput (ctx : RunContext) (td : TestDefinition) : RunOutput :=
  hookPhase ctx td (resolvedAfter td) (afterNotices td)

/-- Whether the before-unit hook (if any) classified as SUCCESS. When it
did not, the repository's runner tests show the test functions are not
processed at all (no records for them), while AFTER_UNIT still runs. -/
def beforeUnitOk (td : TestDefinition) : Bool :=
  match resolvedBefore td with
  | none => true
  | some (_, b) => classifyBody b == .SUCCESS

/-- Modelled from the spec: the after_each phase following a successful
function body (section 4.3): run and classify after_each in a fresh
record; when its classification is not SUCCESS, emit a record named
after_each and set cascade-skip. Returns the cascade flag and output. -/
def afterEachPhase (ctx : RunContext) (td : TestDefinition) :
    Bool × RunOutput :=
  match td.after_each with
  | none => (false, ⟨[], [], []⟩)
  | some ae =>
      if classifyBody ae = .SUCCESS then
        (false, ⟨[], bodyLog ae, ["after_each"]⟩)
      else
        (true,
         ⟨[mkRecord ctx td.description ("after_each") (bodyChannel ae)
             (classifyBody ae)],
          bodyLog ae, ["after_each"]⟩)

/-- Modelled from the spec: running one test function body that was not
skipped (section 4.3): reset the Signal Channel, run the body, classify,
emit a record named after the function; after a successful body run the
after_each phase. Returns the cascade flag for the remaining functions. -/
def runOneFunction (ctx : RunContext) (td : TestDefinition)
    (name : String) (b : Body) : Bool × RunOutput :=
  let fnOut : RunOutput :=
    ⟨[mkRecord ctx td.description name (bodyChannel b) (classifyBody b)],
     ("Test started: " ++ name) :: bodyLog b, [name]⟩
  if classifyBody b = .SUCCESS then
    let ae := afterEachPhase ctx td
    (ae.1, fnOut.append ae.2)
  else
    (false, fnOut)

/-- Modelled from the spec: the PER_FUNCTION loop of the Hook Sequencer
(section 4.3). With cascade-skip set, each function is emitted as SKIPPED
with its skip notice and nothing runs. Otherwise before_each (if present)
runs first: when it does not classify SUCCESS, a record named before_each
is emitted with that classification, the current function is emitted as
SKIPPED, and cascade-skip is set for the rest. Otherwise the function body
runs, followed by the after_each phase. -/
def processFunctions (ctx : RunContext) (td : TestDefinition) :
    Bool → List (String × Body) → RunOutput
  | _, [] => ⟨[], [], []⟩
  | true, (name, _) :: rest =>
      RunOutput.append
        ⟨[skipRecord ctx td name], ["Test skipped: " ++ name], []⟩
        (processFunctions ctx td true rest)
  | false, (name, b) :: rest =>
      match td.before_each with
      | some be =>
          if classifyBody be = .SUCCESS then
            let one := runOneFunction ctx td name b
            RunOutput.append
              (RunOutput.append ⟨[], bodyLog be, ["before_each"]⟩ one.2)
              (processFunctions ctx td one.1 rest)
          else
            RunOutput.append
              ⟨[mkRecord ctx td.description ("before_each") (bodyChannel be)
                  (classifyBody be),
                skipRecord ctx td name],
               bodyLog be ++ ["Test skipped: " ++ name], ["before_each"]⟩
              (processFunctions ctx td true rest)
      | none =>
          let one := runOneFunction ctx td name b
          RunOutput.append one.2 (processFunctions ctx td one.1 rest)

/-- The unit-run start log lines. -/
def startLog (ctx : RunContext) : List String :=
  ["Test execution started: " ++ ctx.test_file, "Browser: " ++ ctx.browser]

/-- The output when the unit declares skip and the run is part of a suite:
every matched function is emitted as SKIPPED with its notice, no bodies
run. -/
def skipAllOutput (ctx : RunContext) (td : TestDefinition) : RunOutput :=
  ⟨td.functions.map (fun f => skipRecord ctx td f.1),
   td.functions.map (fun f => "Test skipped: " ++ f.1), []⟩

/-- Modelled from the spec: one unit-run of the Test-Unit Runner
(sections 4.3 and 4.4) against a single data set. A load failure emits
exactly the synthetic setup record and nothing runs. When zero functions
matched the test naming convention, the repository's runner tests show
the run only logs the no-tests notice: no records are produced and no
hook runs. When skip is declared and the run is from a suite, the tests
show the before-unit hook does not run and every function is emitted as
SKIPPED; AFTER_UNIT runs per the spec. Otherwise BEFORE_UNIT runs, then
(only when it classified SUCCESS) the per-function loop, then AFTER_UNIT
unconditionally. -/
def runUnit (ctx : RunContext) (l : LoadResult) : RunOutput :=
  match l with
  | .loadError e =>
      ⟨[loadFailRecord ctx e], startLog ctx ++ [e.description], []⟩
  | .ok td =>
      if td.functions.isEmpty then
        ⟨[], startLog ctx ++ ["No tests were found for file: " ++ ctx.test_file],
         []⟩
      else if td.skip && ctx.from_suite then
        let out := RunOutput.append (skipAllOutput ctx td) (afterUnitOutput ctx td)
        ⟨out.records, startLog ctx ++ out.log, out.executed⟩
      else
        let fo :=
          if beforeUnitOk td then processFunctions ctx td false td.functions
          else ⟨[], [], []⟩
        let out :=
          RunOutput.append (RunOutput.append (beforeUnitOutput ctx td) fo)
            (afterUnitOutput ctx td)
        ⟨out.records, startLog ctx ++ out.log, out.executed⟩

/-! ### Concrete fixtures used to instantiate the general theorems -/

/-- A concrete run context for a standalone run. -/
def sampleCtx : RunContext :=
  { test_file := "file1", browser := "chrome", environment := "",
    set_name := "", test_data := "", from_suite := false, timestamp := "ts" }

/-- A concrete run context for a run that is part of a suite. -/
def suiteCtx : RunContext :=
  { test_file := "file1", browser := "chrome", environment := "",
    set_name := "", test_data := "", from_suite := true, timestamp := "ts" }

/-- A concrete load error. -/
def sampleError : ErrorEntry := ⟨"SyntaxError: invalid syntax", "full trace"⟩

/-- A body that performs one step and completes. -/
def stepOnly (m : String) : Body := ⟨[.step m], .normal⟩

/-- A test definition with no functions and no hooks. -/
def emptyDef : TestDefinition :=
  { description := "desc", skip := false, functions := [],
    before_test := none, setup := none, after_test := none, teardown := none,
    before_each := none, after_each := none }

/-- The unit of Scenario B: before_test, a single function test_one and
after_test, each performing one step, nothing failing. -/
def scenarioBDef (d m1 m2 m3 : String) : TestDefinition :=
  { description := d, skip := false,
    functions := [("test_one", ⟨[.step m2], .normal⟩)],
    before_test := some ⟨[.step m1], .normal⟩, setup := none,
    after_test := some ⟨[.step m3], .normal⟩, teardown := none,
    before_each := none, after_each := none }

/-- A unit with an after_test hook but zero matched test functions. -/
def zeroFnAfterHookDef : TestDefinition :=
  { description := "d", skip := false, functions := [],
    before_test := none, setup := none,
    after_test := some (stepOnly ("after step")), teardown := none,
    before_each := none, after_each := none }

/-- A unit with both unit hooks and zero matched test functions. -/
def zeroFnBothHooksDef : TestDefinition :=
  { description := "d", skip := false, functions := [],
    before_test := some (stepOnly ("before step")), setup := none,
    after_test := some (stepOnly ("after step")), teardown := none,
    before_each := none, after_each := none }

/-- A unit with one function and an after_test hook. -/
def oneFnAfterHookDef : TestDefinition :=
  { description := "d", skip := false,
    functions := [("test_one", stepOnly ("test step"))],
    before_test := none, setup := none,
    after_test := some (stepOnly ("after step")), teardown := none,
    before_each := none, after_each := none }

/-- A unit whose before_each hook fails before two test functions. -/
def beforeEachFailDef : TestDefinition :=
  { description := "d", skip := false,
    functions := [("test_one", stepOnly ("test step")),
                  ("test_two", stepOnly ("test step"))],
    before_test := none, setup := none, after_test := none, teardown := none,
    before_each := some ⟨[], .failSignal ("before_each fail") ("trace")⟩,
    after_each := some (stepOnly ("after_each step")) }

/-- A unit whose after_each hook fails after two successful functions. -/
def afterEachFailDef : TestDefinition :=
  { description := "d", skip := false,
    functions := [("test_one", stepOnly ("test step")),
                  ("test_two", stepOnly ("test step"))],
    before_test := none, setup := none, after_test := none, teardown := none,
    before_each := none,
    after_each := some ⟨[], .failSignal ("after_each fail") ("trace")⟩ }

/-- A unit declaring skip with one test function and unit hooks. -/
def skipSuiteDef : TestDefinition :=
  { description := "d", skip := true,
    functions := [("test_one", stepOnly ("test step"))],
    before_test := some (stepOnly ("before step")), setup := none,
    after_test := some (stepOnly ("after step")), teardown := none,
    before_each := none, after_each := none }

/-- A body aborted by a bare assert: an uncaught AssertionError with an
empty assertion message. -/
def bareAssertBody : Body := ⟨[.step ("test step")], .failSignal "" ("trace")⟩

end Golem

namespace Golem

/-! ### Helper lemmas -/

/-- With cascade-skip set, the per-function loop emits one SKIPPED record
and one skip notice per remaining function and runs nothing. -/
theorem processFunctions_cascade (ctx : RunContext) (td : TestDefinition)
    (fs : List (String × Body)) :
    processFunctions ctx td true fs =
      ⟨fs.map (fun f => skipRecord ctx td f.1),
       fs.map (fun f => "Test skipped: " ++ f.1), []⟩ := by
  induction fs with
  | nil => rfl
  | cons f rest ih =>
      obtain ⟨name, b⟩ := f
      simp [processFunctions, RunOutput.append, ih]

/-- The Outcome Classifier never produces SKIPPED. -/
theorem classify_ne_skipped (t : Termination) (errs : List ErrorEntry) :
    classify t errs ≠ .SKIPPED := by
  cases t with
  | normal => simp only [classify]; split <;> simp
  | failSignal m tr => simp [classify]
  | exception m tr => simp [classify]

/-- Classifying a body never produces SKIPPED. -/
theorem classifyBody_ne_skipped (b : Body) : classifyBody b ≠ .SKIPPED :=
  classify_ne_skipped b.termination (bodyChannel b).errors

/-- When the before-unit hook classifies SUCCESS (or is absent) it emits
no record. -/
theorem beforeUnitOk_records (ctx : RunContext) (td : TestDefinition)
    (h : beforeUnitOk td = true) :
    (beforeUnitOutput ctx td).records = [] := by
  unfold beforeUnitOk at h
  unfold beforeUnitOutput hookPhase
  cases hres : resolvedBefore td with
  | none => simp [hres]
  | some p =>
      obtain ⟨hn, b⟩ := p
      rw [hres] at h
      simp only [beq_iff_eq] at h
      simp [hres, h]

/-- The resolved after-unit hook is named after_test or teardown. -/
theorem resolvedAfter_name (td : TestDefinition) (hn : String) (b : Body)
    (h : resolvedAfter td = some (hn, b)) :
    hn = "after_test" ∨ hn = "teardown" := by
  unfold resolvedAfter at h
  cases hat : td.after_test with
  | some b2 =>
      rw [hat] at h
      simp only [Option.some.injEq, Prod.mk.injEq] at h
      exact Or.inl h.1.symm
  | none =>
      rw [hat] at h
      cases htd : td.teardown with
      | some b3 =>
          rw [htd] at h
          simp only [Option.some.injEq, Prod.mk.injEq] at h
          exact Or.inr h.1.symm
      | none => rw [htd] at h; simp at h

/-- Every record of the AFTER_UNIT phase is named after_test or teardown
and is never SKIPPED. -/
theorem afterUnit_records_facts (ctx : RunContext) (td : TestDefinition) :
    ∀ r ∈ (afterUnitOutput ctx td).records,
      (r.test = "after_test" ∨ r.test = "teardown") ∧ r.result ≠ .SKIPPED := by
  intro r hr
  unfold afterUnitOutput hookPhase at hr
  cases hres : resolvedAfter td with
  | none => rw [hres] at hr; simp at hr
  | some p =>
      obtain ⟨hn, b⟩ := p
      rw [hres] at hr
      by_cases hc : classifyBody b = .SUCCESS
      · simp [hc] at hr
      · simp only [if_neg hc, List.mem_singleton] at hr
        subst hr
        refine ⟨?_, ?_⟩
        · simpa [mkRecord] using resolvedAfter_name td hn b hres
        · simpa [mkRecord] using classifyBody_ne_skipped b

/-- Every body the AFTER_UNIT phase invokes is the resolved after-unit
hook. -/
theorem afterUnit_executed_facts (ctx : RunContext) (td : TestDefinition) :
    ∀ s ∈ (afterUnitOutput ctx td).executed,
      s = "after_test" ∨ s = "teardown" := by
  intro s hs
  unfold afterUnitOutput hookPhase at hs
  cases hres : resolvedAfter td with
  | none => rw [hres] at hs; simp at hs
  | some p =>
      obtain ⟨hn, b⟩ := p
      rw [hres] at hs
      simp only [List.mem_singleton] at hs
      subst hs
      exact resolvedAfter_name td s b hres

/-- When the after-unit hook resolves, AFTER_UNIT invokes exactly it. -/
theorem afterUnit_executed_of (ctx : RunContext) (td : TestDefinition)
    (hn : String) (hb : Body) (h : resolvedAfter td = some (hn, hb)) :
    (afterUnitOutput ctx td).executed = [hn] := by
  unfold afterUnitOutput hookPhase
  simp [h]

/-- AFTER_UNIT contributes no SKIPPED record. -/
theorem afterUnit_countP_skipped (ctx : RunContext) (td : TestDefinition) :
    (afterUnitOutput ctx td).records.countP (fun r => r.result == .SKIPPED) = 0 := by
  rw [List.countP_eq_zero]
  intro r hr
  have h := (afterUnit_records_facts ctx td r hr).2
  simp [h]

/-- AFTER_UNIT contributes no record named before_each. -/
theorem afterUnit_countP_before_each (ctx : RunContext) (td : TestDefinition) :
    (afterUnitOutput ctx td).records.countP (fun r => r.test == "before_each") = 0 := by
  rw [List.countP_eq_zero]
  intro r hr
  have h := (afterUnit_records_facts ctx td r hr).1
  rcases h with h | h <;> simp [h]

/-! ### Claim theorems -/

/-- Claim C1: the Outcome Classifier assigns the ResultKind by fixed
priority: a body aborted by the failure signal is FAILURE (even if error
calls also occurred), else a body aborted by any other uncaught condition
is CODE_ERROR (even if error calls also occurred), else a completed body
with a non-empty errors list is ERROR, else SUCCESS. -/
theorem outcome_classifier_priority (m tr : String) (errs : List ErrorEntry) :
    classify (.failSignal m tr) errs = .FAILURE ∧
    classify (.exception m tr) errs = .CODE_ERROR ∧
    (errs ≠ [] → classify .normal errs = .ERROR) ∧
    classify .normal [] = .SUCCESS := by
  refine ⟨rfl, rfl, ?_, rfl⟩
  intro h
  cases errs with
  | nil => exact absurd rfl h
  | cons e rest => rfl

/-- Witness for C1 at a concrete non-empty errors list. -/
theorem outcome_classifier_priority_witness :
    classify .normal [sampleError] = .ERROR :=
  (outcome_classifier_priority ("m") ("t") [sampleError]).2.2.1
    (List.cons_ne_nil sampleError [])

/-- Claim C3: when the unit source cannot be loaded, the unit-run emits
exactly one Result Record, named setup, with result CODE_ERROR, empty
description, empty browser, no steps and exactly one error entry holding
the load error; no hooks or functions run. -/
theorem load_failure_single_record (ctx : RunContext) (e : ErrorEntry) :
    runUnit ctx (.loadError e) =
      ⟨[loadFailRecord ctx e], startLog ctx ++ [e.description], []⟩ ∧
    (loadFailRecord ctx e).test = "setup" ∧
    (loadFailRecord ctx e).result = .CODE_ERROR ∧
    (loadFailRecord ctx e).description = "" ∧
    (loadFailRecord ctx e).browser = "" ∧
    (loadFailRecord ctx e).steps = [] ∧
    (loadFailRecord ctx e).errors = [e] :=
  ⟨rfl, rfl, rfl, rfl, rfl, rfl, rfl⟩

/-- Claim C6: when before_test and after_test complete with no errors they
produce no Result Record of their own: the Scenario B unit yields exactly
one record, named test_one, with result SUCCESS, whose steps hold only the
step recorded inside the function body. -/
theorem successful_hooks_no_records (ctx : RunContext) (d m1 m2 m3 : String) :
    (runUnit ctx (.ok (scenarioBDef d m1 m2 m3))).records =
      [mkRecord ctx d ("test_one") ⟨[⟨m2, none, none⟩], []⟩ .SUCCESS] := rfl

/-- Claim C8: every emitted Result Record serializes to exactly the 12
fields test_file, test, set_name, test_data, browser, environment,
description, steps, errors, result, elapsed_time and timestamp, for every
result kind including the synthetic load-failure record. -/
theorem record_fields_exact (ctx : RunContext) (l : LoadResult)
    (r : ResultRecord) (_hr : r ∈ (runUnit ctx l).records) :
    r.toFields.map Prod.fst = resultRecordFieldNames ∧
    resultRecordFieldNames.length = 12 ∧
    resultRecordFieldNames.Nodup :=
  ⟨rfl, rfl, by decide⟩

/-- Witness for C8 on the synthetic load-failure record. -/
theorem record_fields_exact_witness :
    (loadFailRecord sampleCtx sampleError).toFields.map Prod.fst =
      resultRecordFieldNames :=
  (record_fields_exact sampleCtx (.loadError sampleError)
    (loadFailRecord sampleCtx sampleError)
    (List.mem_singleton.mpr rfl)).1

/-- Claim C4 counterexample: a successfully loaded unit with an after_test
hook but zero matched test functions never invokes the hook, so the hook
does not always execute when loading succeeded. -/
theorem after_unit_hook_zero_functions_cex :
    (resolvedAfter zeroFnAfterHookDef).isSome = true ∧
    (runUnit sampleCtx (.ok zeroFnAfterHookDef)).executed = [] ∧
    (runUnit sampleCtx (.ok zeroFnAfterHookDef)).records = [] :=
  ⟨rfl, rfl, rfl⟩

/-- Claim C4 (amended): for every unit-run that loaded successfully and
matched at least one test function, the resolved after_test (or teardown)
hook always executes, regardless of any prior hook failure, function
failure, cascade-skip or suite-level skip. -/
theorem after_unit_hook_runs (ctx : RunContext) (td : TestDefinition)
    (hn : String) (hb : Body)
    (hfns : td.functions ≠ [])
    (hres : resolvedAfter td = some (hn, hb)) :
    hn ∈ (runUnit ctx (.ok td)).executed := by
  have hae := afterUnit_executed_of ctx td hn hb hres
  have hne : td.functions.isEmpty = false := by
    cases h : td.functions with
    | nil => exact absurd h hfns
    | cons f r => rfl
  unfold runUnit
  simp only [hne, Bool.false_eq_true, if_false]
  by_cases hs : (td.skip && ctx.from_suite) = true
  · simp [hs, RunOutput.append, skipAllOutput, hae]
  · simp only [Bool.not_eq_true] at hs
    simp [hs, RunOutput.append, hae]

/-- Witness for C4 on a unit with one function and an after_test hook. -/
theorem after_unit_hook_runs_witness :
    "after_test" ∈ (runUnit sampleCtx (.ok oneFnAfterHookDef)).executed :=
  after_unit_hook_runs sampleCtx oneFnAfterHookDef ("after_test")
    (stepOnly ("after step")) (by decide) rfl

/-- Claim C5 counterexample: a successfully loaded unit with zero matched
test functions and both unit hooks present runs no hook body at all, so
the unit-run does not still run the before/after unit hooks. -/
theorem zero_functions_hooks_cex :
    (resolvedBefore zeroFnBothHooksDef).isSome = true ∧
    (resolvedAfter zeroFnBothHooksDef).isSome = true ∧
    (runUnit sampleCtx (.ok zeroFnBothHooksDef)).executed = [] :=
  ⟨rfl, rfl, rfl⟩

/-- Claim C5 (amended): for every unit-run in which zero functions match
the test naming convention, no per-function records are produced, the
before/after unit hooks do not run (no body is invoked at all), the
notice No tests were found for file is logged, and the unit-run produces
no Result Records at all. -/
theorem zero_functions_no_records (ctx : RunContext) (td : TestDefinition)
    (hfns : td.functions = []) :
    runUnit ctx (.ok td) =
      ⟨[], startLog ctx ++ ["No tests were found for file: " ++ ctx.test_file],
       []⟩ := by
  simp [runUnit, hfns]

/-- Witness for C5 on a unit with both hooks and zero functions. -/
theorem zero_functions_no_records_witness :
    (runUnit sampleCtx (.ok zeroFnBothHooksDef)).records = [] := by
  rw [zero_functions_no_records sampleCtx zeroFnBothHooksDef rfl]

/-- On the normal path (at least one function, no suite-level skip, the
before-unit hook succeeded) the unit-run output is the concatenation of
the BEFORE_UNIT phase, the per-function loop started with cascade unset,
and the AFTER_UNIT phase. -/
theorem runUnit_normal (ctx : RunContext) (td : TestDefinition)
    (hne : td.functions.isEmpty = false)
    (hskip : (td.skip && ctx.from_suite) = false)
    (hbu : beforeUnitOk td = true) :
    runUnit ctx (.ok td) =
      ⟨(beforeUnitOutput ctx td).records ++
         ((processFunctions ctx td false td.functions).records ++
          (afterUnitOutput ctx td).records),
       startLog ctx ++
         ((beforeUnitOutput ctx td).log ++
          ((processFunctions ctx td false td.functions).log ++
           (afterUnitOutput ctx td).log)),
       (beforeUnitOutput ctx td).executed ++
         ((processFunctions ctx td false td.functions).executed ++
          (afterUnitOutput ctx td).executed)⟩ := by
  simp [runUnit, hne, hskip, hbu, RunOutput.append]

/-- The SKIPPED records made for a function list count its length. -/
theorem countP_skip_map (ctx : RunContext) (td : TestDefinition)
    (fs : List (String × Body)) :
    (fs.map (fun f => skipRecord ctx td f.1)).countP
      (fun r => r.result == .SKIPPED) = fs.length := by
  induction fs with
  | nil => rfl
  | cons f rest ih => simp [List.countP_cons, skipRecord, mkRecord, ih]

/-- SKIPPED records for functions not named before_each are not counted
as before_each records. -/
theorem countP_skip_map_name (ctx : RunContext) (td : TestDefinition)
    (fs : List (String × Body))
    (hnames : ∀ f ∈ fs, f.1 ≠ "before_each") :
    (fs.map (fun f => skipRecord ctx td f.1)).countP
      (fun r => r.test == "before_each") = 0 := by
  induction fs with
  | nil => rfl
  | cons f rest ih =>
      have h1 : f.1 ≠ "before_each" := hnames f (List.mem_cons_self f rest)
      have h2 : ∀ g ∈ rest, g.1 ≠ "before_each" :=
        fun g hg => hnames g (List.mem_cons_of_mem f hg)
      rw [List.map_cons, List.countP_cons_of_neg, ih h2]
      simp [skipRecord, mkRecord, h1]

/-- Claim C2: when the before_each hook fails (classifies other than
SUCCESS) before a data set's functions, exactly one record named
before_each is emitted with that classification, and every function of
the data set — the one the hook preceded included — is emitted as SKIPPED
without its body or after_each running, so the number of SKIPPED records
equals the number of remaining functions. -/
theorem before_each_failure_cascade (ctx : RunContext) (td : TestDefinition)
    (be : Body)
    (hskip : (td.skip && ctx.from_suite) = false)
    (hfns : td.functions ≠ [])
    (hnames : ∀ f ∈ td.functions, f.1 ≠ "before_each")
    (hbu : beforeUnitOk td = true)
    (hbe : td.before_each = some be)
    (hfail : classifyBody be ≠ .SUCCESS) :
    (runUnit ctx (.ok td)).records =
      mkRecord ctx td.description ("before_each") (bodyChannel be)
          (classifyBody be)
        :: (td.functions.map (fun f => skipRecord ctx td f.1) ++
            (afterUnitOutput ctx td).records) ∧
    (runUnit ctx (.ok td)).records.countP (fun r => r.result == .SKIPPED) =
      td.functions.length ∧
    (runUnit ctx (.ok td)).records.countP (fun r => r.test == "before_each") =
      1 ∧
    (runUnit ctx (.ok td)).executed =
      (beforeUnitOutput ctx td).executed ++
        ("before_each") :: (afterUnitOutput ctx td).executed := by
  obtain ⟨⟨name, b⟩, rest, hf⟩ : ∃ f rest, td.functions = f :: rest := by
    cases h : td.functions with
    | nil => exact absurd h hfns
    | cons f r => exact ⟨f, r, rfl⟩
  have hne : td.functions.isEmpty = false := by rw [hf]; rfl
  have hru := runUnit_normal ctx td hne hskip hbu
  have hpf : processFunctions ctx td false td.functions =
      RunOutput.append
        ⟨[mkRecord ctx td.description ("before_each") (bodyChannel be)
            (classifyBody be),
          skipRecord ctx td name],
         bodyLog be ++ ["Test skipped: " ++ name], ["before_each"]⟩
        (processFunctions ctx td true rest) := by
    rw [hf]
    simp only [processFunctions, hbe, if_neg hfail]
  have hrec : (runUnit ctx (.ok td)).records =
      mkRecord ctx td.description ("before_each") (bodyChannel be)
          (classifyBody be)
        :: (td.functions.map (fun f => skipRecord ctx td f.1) ++
            (afterUnitOutput ctx td).records) := by
    rw [hru]
    simp only [hpf, processFunctions_cascade, RunOutput.append,
      beforeUnitOk_records ctx td hbu]
    rw [hf]
    simp
  refine ⟨hrec, ?_, ?_, ?_⟩
  · rw [hrec, List.countP_cons_of_neg, List.countP_append,
      countP_skip_map, afterUnit_countP_skipped]
    · simp
    · simp only [mkRecord, beq_iff_eq]
      exact classifyBody_ne_skipped be
  · rw [hrec, List.countP_cons_of_pos, List.countP_append,
      countP_skip_map_name ctx td td.functions hnames,
      afterUnit_countP_before_each]
    simp [mkRecord]
  · rw [hru]
    simp [hpf, processFunctions_cascade, RunOutput.append]

/-- Witness for C2: before_each fails before test_one and test_two,
yielding exactly before_each FAILURE then two SKIPPED records. -/
theorem before_each_failure_cascade_witness :
    (runUnit sampleCtx (.ok beforeEachFailDef)).records.map
        (fun r => (r.test, r.result)) =
      [("before_each", ResultKind.FAILURE),
       ("test_one", ResultKind.SKIPPED),
       ("test_two", ResultKind.SKIPPED)] := by
  have h := before_each_failure_cascade sampleCtx beforeEachFailDef
    (⟨[], .failSignal ("before_each fail") ("trace")⟩)
    rfl (by decide) (by decide) rfl rfl (by decide)
  rw [h.1]
  rfl

/-- Claim C7: when the after_each hook, run after a successful function
body, classifies other than SUCCESS, a separate record named after_each
with that classification is emitted in a fresh record, the preceding
function keeps its own SUCCESS record unchanged, and all remaining
functions of the data set are emitted as SKIPPED without running. -/
theorem after_each_failure_cascade (ctx : RunContext) (td : TestDefinition)
    (n : String) (b ae : Body) (rest : List (String × Body))
    (hskip : (td.skip && ctx.from_suite) = false)
    (hf : td.functions = (n, b) :: rest)
    (hbu : beforeUnitOk td = true)
    (hbe : td.before_each = none)
    (hb : classifyBody b = .SUCCESS)
    (hae : td.after_each = some ae)
    (hfail : classifyBody ae ≠ .SUCCESS) :
    (runUnit ctx (.ok td)).records =
      mkRecord ctx td.description n (bodyChannel b) .SUCCESS
        :: mkRecord ctx td.description ("after_each") (bodyChannel ae)
             (classifyBody ae)
        :: (rest.map (fun f => skipRecord ctx td f.1) ++
            (afterUnitOutput ctx td).records) ∧
    (runUnit ctx (.ok td)).records.countP (fun r => r.result == .SKIPPED) =
      rest.length ∧
    (runUnit ctx (.ok td)).executed =
      (beforeUnitOutput ctx td).executed ++
        n :: ("after_each") :: (afterUnitOutput ctx td).executed := by
  have hne : td.functions.isEmpty = false := by rw [hf]; rfl
  have hru := runUnit_normal ctx td hne hskip hbu
  have hpf : processFunctions ctx td false td.functions =
      RunOutput.append
        (RunOutput.append
          ⟨[mkRecord ctx td.description n (bodyChannel b) (classifyBody b)],
           ("Test started: " ++ n) :: bodyLog b, [n]⟩
          ⟨[mkRecord ctx td.description ("after_each") (bodyChannel ae)
              (classifyBody ae)],
           bodyLog ae, ["after_each"]⟩)
        (processFunctions ctx td true rest) := by
    rw [hf]
    simp only [processFunctions, hbe]
    unfold runOneFunction afterEachPhase
    simp only [hae, hb, if_true, if_neg hfail]
  have hrec : (runUnit ctx (.ok td)).records =
      mkRecord ctx td.description n (bodyChannel b) .SUCCESS
        :: mkRecord ctx td.description ("after_each") (bodyChannel ae)
             (classifyBody ae)
        :: (rest.map (fun f => skipRecord ctx td f.1) ++
            (afterUnitOutput ctx td).records) := by
    rw [hru]
    simp only [hpf, processFunctions_cascade, RunOutput.append,
      beforeUnitOk_records ctx td hbu, hb]
    simp
  refine ⟨hrec, ?_, ?_⟩
  · rw [hrec, List.countP_cons_of_neg, List.countP_cons_of_neg,
      List.countP_append, countP_skip_map, afterUnit_countP_skipped]
    · simp
    · simp only [mkRecord, beq_iff_eq]
      exact classifyBody_ne_skipped ae
    · simp [mkRecord]
  · rw [hru]
    simp [hpf, processFunctions_cascade, RunOutput.append]

/-- Witness for C7: after_each fails after the successful test_one, then
test_two is SKIPPED. -/
theorem after_each_failure_cascade_witness :
    (runUnit sampleCtx (.ok afterEachFailDef)).records.map
        (fun r => (r.test, r.result)) =
      [("test_one", ResultKind.SUCCESS),
       ("after_each", ResultKind.FAILURE),
       ("test_two", ResultKind.SKIPPED)] := by
  have h := after_each_failure_cascade sampleCtx afterEachFailDef
    ("test_one") (stepOnly ("test step"))
    (⟨[], .failSignal ("after_each fail") ("trace")⟩)
    [(("test_two"), stepOnly ("test step"))]
    rfl rfl rfl rfl rfl rfl (by decide)
  rw [h.1]
  rfl

/-- Claim C9: when the unit declares skip and the run is part of a suite,
each matched test function yields a record with result SKIPPED and the
notice Test skipped is logged for it, with no per-function hook bodies
run and the function body never executing. -/
theorem skip_from_suite_records (ctx : RunContext) (td : TestDefinition)
    (hskip : td.skip = true) (hsuite : ctx.from_suite = true)
    (hfns : td.functions ≠ [])
    (hnames : ∀ f ∈ td.functions, f.1 ≠ "after_test" ∧ f.1 ≠ "teardown") :
    (runUnit ctx (.ok td)).records =
      td.functions.map (fun f => skipRecord ctx td f.1) ++
        (afterUnitOutput ctx td).records ∧
    (runUnit ctx (.ok td)).records.countP (fun r => r.result == .SKIPPED) =
      td.functions.length ∧
    (∀ f ∈ td.functions,
      skipRecord ctx td f.1 ∈ (runUnit ctx (.ok td)).records ∧
      ("Test skipped: " ++ f.1) ∈ (runUnit ctx (.ok td)).log ∧
      f.1 ∉ (runUnit ctx (.ok td)).executed) ∧
    ("before_each") ∉ (runUnit ctx (.ok td)).executed ∧
    ("after_each") ∉ (runUnit ctx (.ok td)).executed := by
  have hne : td.functions.isEmpty = false := by
    cases h : td.functions with
    | nil => exact absurd h hfns
    | cons f r => rfl
  have hru : runUnit ctx (.ok td) =
      ⟨td.functions.map (fun f => skipRecord ctx td f.1) ++
         (afterUnitOutput ctx td).records,
       startLog ctx ++
         (td.functions.map (fun f => "Test skipped: " ++ f.1) ++
          (afterUnitOutput ctx td).log),
       (afterUnitOutput ctx td).executed⟩ := by
    simp [runUnit, hne, hskip, hsuite, RunOutput.append, skipAllOutput]
  have hnotmem : ∀ s : String,
      ((s = "after_test" ∨ s = "teardown") → False) →
      s ∉ (runUnit ctx (.ok td)).executed := by
    intro s hns hmem
    rw [hru] at hmem
    exact hns (afterUnit_executed_facts ctx td s hmem)
  refine ⟨?_, ?_, ?_, ?_, ?_⟩
  · rw [hru]
  · rw [hru]
    simp only [List.countP_append, countP_skip_map,
      afterUnit_countP_skipped]
    simp
  · intro f hfmem
    refine ⟨?_, ?_, ?_⟩
    · rw [hru]
      exact List.mem_append_left _ (List.mem_map_of_mem _ hfmem)
    · rw [hru]
      refine List.mem_append_right _ (List.mem_append_left _ ?_)
      exact List.mem_map_of_mem _ hfmem
    · exact hnotmem f.1 (fun h => by
        rcases h with h | h
        · exact (hnames f hfmem).1 h
        · exact (hnames f hfmem).2 h)
  · exact hnotmem ("before_each") (by decide)
  · exact hnotmem ("after_each") (by decide)

/-- Witness for C9 on a skip unit with one function, run from a suite. -/
theorem skip_from_suite_records_witness :
    (runUnit suiteCtx (.ok skipSuiteDef)).records.countP
      (fun r => r.result == .SKIPPED) = 1 :=
  (skip_from_suite_records suiteCtx skipSuiteDef rfl rfl (by decide)
    (by decide)).2.1

/-- Claim C10: an uncaught AssertionError aborting a test function body —
from the fail helper or a bare assert — is the failure signal: the
record emitted for the function has result FAILURE, a single error entry
whose message is the AssertionError prefix followed by the assertion
message (empty for a bare assert), and a step whose message is Failure
appended to the record's steps. -/
theorem assertion_failure_classified (ctx : RunContext) (td : TestDefinition)
    (n m tr : String) (b : Body) (rest : List (String × Body))
    (ht : b.termination = .failSignal m tr)
    (herr : (runActions Channel.empty b.actions).errors = [])
    (hbe : td.before_each = none) :
    processFunctions ctx td false ((n, b) :: rest) =
      RunOutput.append
        ⟨[mkRecord ctx td.description n
            ⟨(runActions Channel.empty b.actions).steps ++
               [⟨"Failure", none, some ⟨"AssertionError: " ++ m, tr⟩⟩],
              [⟨"AssertionError: " ++ m, tr⟩]⟩
            .FAILURE],
         ("Test started: " ++ n) :: bodyLog b, [n]⟩
        (processFunctions ctx td false rest) := by
  have hch : bodyChannel b =
      ⟨(runActions Channel.empty b.actions).steps ++
         [⟨"Failure", none, some ⟨"AssertionError: " ++ m, tr⟩⟩],
        [⟨"AssertionError: " ++ m, tr⟩]⟩ := by
    unfold bodyChannel
    rw [ht]
    simp [applyTermination, herr]
  have hcl : classifyBody b = .FAILURE := by
    unfold classifyBody
    rw [ht]
    rfl
  simp only [processFunctions, hbe]
  unfold runOneFunction
  rw [hch, hcl]
  simp

/-- Witness for C10 on a bare assert: empty assertion message, FAILURE,
one AssertionError entry and a final Failure step. -/
theorem assertion_failure_classified_witness :
    (processFunctions sampleCtx emptyDef false
        [(("test_one"), bareAssertBody)]).records.map
      (fun r => (r.result, r.errors.map ErrorEntry.message,
        (r.steps.map StepEntry.message).getLast?)) =
      [(ResultKind.FAILURE, [("AssertionError: ")], some ("Failure"))] := by
  rw [assertion_failure_classified sampleCtx emptyDef ("test_one") ""
    ("trace") bareAssertBody [] rfl rfl rfl]
  rfl

end Golem
